import Mathlib

set_option linter.all false

/-!
Verification development for the Disco handshake engine (`disco/disco.go`).

The handshake engine is embedded shallowly:

* The external Strobe duplex object is modelled as the trace of operations
  applied to it (a `List StrobeOp`, newest operation first).  The engine's
  claims are about which operations are invoked, in which order and with
  which arguments, which the trace records exactly.  Authenticated
  encryption is given a concrete executable stand-in whose ciphertext is
  `plaintext ++ 16-byte tag`, matching the interface contract
  (`len(ciphertext) = len(plaintext) + 16`).
* Go panics are modelled as error values (`DiscoError`), carried next to the
  mutated state, because the Go functions mutate the receiver through a
  pointer before panicking: the partially-mutated state is observable.
* The key-agreement file of the repository (keyPair, dh, dhLen,
  GenerateKeypair) is not under `src/`; those definitions are modelled from
  the spec, as marked in their doc comments.
-/

/-- One operation applied to the external Strobe duplex object.  The Strobe
state is modelled as the trace of operations applied to it. -/
inductive StrobeOp where
  | initOp (label : List Char)
  | macLenOp (n : Nat)
  | adOp (meta : Bool) (data : List Nat)
  | sendCLRop (meta : Bool) (data : List Nat)
  | recvCLRop (meta : Bool) (data : List Nat)
  | sendAEADop (ad : List Nat) (plaintext : List Nat)
  | recvAEADop (ad : List Nat) (plaintext : List Nat)
  | keyOp (k : List Nat)
  | ratchetOp (n : Nat)
deriving DecidableEq

/-- A Strobe state: the trace of operations applied so far, newest first. -/
abbrev Strobe := List StrobeOp

/-- Modelled from the spec (external StrobeGo library): `strobe.InitStrobe`. -/
def strobeInitSt (label : List Char) : Strobe := [StrobeOp.initOp label]

/-- Modelled from the spec (external StrobeGo library): `SetMacLen`. -/
def strobeSetMacLen (n : Nat) (st : Strobe) : Strobe := StrobeOp.macLenOp n :: st

/-- Modelled from the spec (external StrobeGo library): `AD(meta, data)`. -/
def strobeAD (meta : Bool) (data : List Nat) (st : Strobe) : Strobe :=
  StrobeOp.adOp meta data :: st

/-- Modelled from the spec (external StrobeGo library): `Send_CLR(meta, data)`. -/
def strobeSendCLR (meta : Bool) (data : List Nat) (st : Strobe) : Strobe :=
  StrobeOp.sendCLRop meta data :: st

/-- Modelled from the spec (external StrobeGo library): `Recv_CLR(meta, data)`. -/
def strobeRecvCLR (meta : Bool) (data : List Nat) (st : Strobe) : Strobe :=
  StrobeOp.recvCLRop meta data :: st

/-- Modelled from the spec (external StrobeGo library): `KEY(k)`. -/
def strobeKEY (k : List Nat) (st : Strobe) : Strobe := StrobeOp.keyOp k :: st

/-- Modelled from the spec (external StrobeGo library): `RATCHET(n)`. -/
def strobeRATCHET (n : Nat) (st : Strobe) : Strobe := StrobeOp.ratchetOp n :: st

/-- Modelled from the spec (external StrobeGo library): `Clone()` returns an
independent copy; states are values here, so a clone is the state itself. -/
def strobeClone (st : Strobe) : Strobe := st

/-- Modelled from the spec (external StrobeGo library): the `Strobe_R` rate
constant passed to `RATCHET` (166 for the 128-bit security level). -/
def strobeR : Nat := 166

/-- Executable stand-in for the 16-byte authentication tag the Strobe state
produces after absorbing a plaintext; it depends on the state, and its
length is 16 as configured by `SetMacLen(16)`. -/
def macTag (st : Strobe) : List Nat := List.replicate 16 (st.length % 256)

/-- Modelled from the spec (external StrobeGo library): `Send_AEAD(plaintext,
ad)` returns `plaintext + 16-byte tag` and advances the state. -/
def sendAEAD (st : Strobe) (pt ad : List Nat) : List Nat × Strobe :=
  let st' := StrobeOp.sendAEADop ad pt :: st
  (pt ++ macTag st', st')

/-- Modelled from the spec (external StrobeGo library): `Recv_AEAD(ciphertext,
ad)` returns `(plaintext, state, ok)`; `ok` is false when the trailing
16-byte tag does not match. -/
def recvAEAD (st : Strobe) (ct ad : List Nat) : List Nat × Strobe × Bool :=
  if ct.length < 16 then ([], st, false)
  else
    let pt := ct.take (ct.length - 16)
    let st' := StrobeOp.recvAEADop ad pt :: st
    (pt, st', ct.drop (ct.length - 16) == macTag st')

/-- Modelled from the spec: a key pair from the key-agreement file of the
repository (not under `src/`); public and private parts are byte lists. -/
structure keyPair where
  privateKey : List Nat
  publicKey : List Nat
deriving DecidableEq

/-- Modelled from the spec: `dhLen`, the fixed length of public keys and DH
outputs (32 bytes for X25519). -/
def dhLen : Nat := 32

/-- The all-zero key pair: the Go zero value of the `keyPair` struct, which
the source's comment designates as the "Empty" (uninitialized) sentinel. -/
def zeroKeyPair : keyPair :=
  { privateKey := List.replicate 32 0, publicKey := List.replicate 32 0 }

/-- Modelled from the spec: `DH(privateKey, peerPublicKey) -> SharedSecret`
from the key-agreement file (not under `src/`); a concrete executable
stand-in of fixed length `dhLen` when both inputs have length `dhLen`. -/
def dh (kp : keyPair) (pub : List Nat) : List Nat :=
  List.zipWith (fun a b => (a * 31 + b) % 256) kp.privateKey pub

/-- The failure modes of the engine.  The Go source aborts by panicking; each
constructor names one abort site, following the spec's taxonomy:
`UnknownHandshakePattern` = panic "the supplied handshakePattern does not
exist"; `ProtocolAlreadyComplete` = panic "no more message pattern to
write/read"; `InvalidToken` = panic "pattern not allowed";
`AuthenticationFailure` = panic "bad MAC" / "invalid MAC";
`MalformedMessage` = the slice-bounds runtime panic on a too-short incoming
message; `NilPointerDereference` = the runtime panic on dereferencing a nil
key-pair argument; `MissingKeyMaterial` is in the spec's taxonomy but, as
proved below, is never produced by the code. -/
inductive DiscoError where
  | UnknownHandshakePattern
  | ProtocolAlreadyComplete
  | InvalidToken
  | MissingKeyMaterial
  | AuthenticationFailure
  | MalformedMessage
  | NilPointerDereference
deriving DecidableEq

/-- A handshake pattern, from `disco.go`: two pre-message pattern strings and
the list of message-step strings (strings as `List Char`). -/
structure handshakePattern where
  initiatorPreMessagePattern : List Char
  responderPreMessagePattern : List Char
  messagePattern : List (List Char)
deriving DecidableEq

/-- The built-in "XX" pattern from `disco.go`:
`{"", "", ["->e", "<-e, ee, s, es", "->s, se"]}`. -/
def xxPattern : handshakePattern :=
  { initiatorPreMessagePattern := []
    responderPreMessagePattern := []
    messagePattern :=
      [ ['-', '>', 'e']
      , ['<', '-', 'e', ',', ' ', 'e', 'e', ',', ' ', 's', ',', ' ', 'e', 's']
      , ['-', '>', 's', ',', ' ', 's', 'e'] ] }

/-- The global `patterns` table from `disco.go`: only "XX" is registered. -/
def patterns : List Char → Option handshakePattern := fun name =>
  if name = ['X', 'X'] then some xxPattern else none

/-- The `handshakeState` struct from `disco.go`. -/
structure handshakeState where
  strobeState : Strobe
  s : keyPair
  e : keyPair
  rs : keyPair
  re : keyPair
  initiator : Bool
  messagePattern : List (List Char)
deriving DecidableEq

/-- `strings.Split(cs, ",")`: split a char list on commas; a split of the
empty list is `[[]]`, as in Go. -/
def splitOnComma : List Char → List (List Char)
  | [] => [[]]
  | c :: cs =>
    if c = ',' then [] :: splitOnComma cs
    else
      match splitOnComma cs with
      | [] => [[c]]
      | t :: ts => (c :: t) :: ts

/-- Drop leading space characters. -/
def trimLeftSpaces : List Char → List Char
  | [] => []
  | c :: cs => if c = ' ' then trimLeftSpaces cs else c :: cs

/-- `strings.Trim(cs, " ")`: drop leading and trailing spaces. -/
def trimSpaces (cs : List Char) : List Char :=
  (trimLeftSpaces (trimLeftSpaces cs).reverse).reverse

/-- The token list of a step, as computed at `disco.go:126` / `disco.go:199`:
strip the first two characters (the direction marker) unconditionally,
split on commas, trim spaces around each token. -/
def stepTokens (step : List Char) : List (List Char) :=
  (splitOnComma (step.drop 2)).map trimSpaces

/-- The byte string `[]byte("initiator")` from the split (`disco.go:175`). -/
def initiatorLabel : List Nat :=
  ['i', 'n', 'i', 't', 'i', 'a', 't', 'o', 'r'].map Char.toNat

/-- The byte string `[]byte("responder")` from the split (`disco.go:179`). -/
def responderLabel : List Nat :=
  ['r', 'e', 's', 'p', 'o', 'n', 'd', 'e', 'r'].map Char.toNat

/-- The final split, `disco.go:174-180` (identical in `WriteMessage` and
`ReadMessage`): fork A clones the transcript, absorbs "initiator" as meta
associated data and ratchets; fork B takes the transcript itself, absorbs
"responder" and ratchets.  It takes no role argument. -/
def split (st : Strobe) : Strobe × Strobe :=
  let c1 := strobeRATCHET strobeR (strobeAD true initiatorLabel (strobeClone st))
  let c2 := strobeRATCHET strobeR (strobeAD true responderLabel st)
  (c1, c2)

/-- Result of executing one token on the write side: the mutated state, the
grown outbound buffer, the remaining entropy, and the abort cause if any. -/
structure TokenWriteOut where
  h : handshakeState
  buf : List Nat
  ents : List keyPair
  err : Option DiscoError
deriving DecidableEq

/-- Result of executing one token on the read side: the mutated state, the
new read offset, and the abort cause if any. -/
structure TokenReadOut where
  h : handshakeState
  offset : Nat
  err : Option DiscoError
deriving DecidableEq

/-- Result of a `WriteMessage` / `ReadMessage` call: the (possibly partially)
mutated state, the output bytes (outbound buffer resp. payload buffer), the
two session states when the handshake completed, and the abort cause if
any.  The Go functions mutate the receiver in place and panic on failure,
so the state component is meaningful even when `err` is set. -/
structure MessageOut where
  h : handshakeState
  buf : List Nat
  forks : Option (Strobe × Strobe)
  err : Option DiscoError
deriving DecidableEq

/-- One iteration of the token loop of `WriteMessage` (`disco.go:129-158`).
The fresh ephemeral key pair of the `e` token (Go `GenerateKeypair()`, in
the key-agreement file outside `src/`) is taken from the entropy list
`ents`; no token checks whether a key-pair slot is still the zero sentinel. -/
def writeToken (h : handshakeState) (buf : List Nat) (ents : List keyPair)
    (tok : List Char) : TokenWriteOut :=
  if tok = ['e'] then
    let kp := ents.headD zeroKeyPair
    { h := { h with e := kp, strobeState := strobeSendCLR false kp.publicKey h.strobeState }
      buf := buf ++ kp.publicKey
      ents := ents.tail
      err := none }
  else if tok = ['s'] then
    let r := sendAEAD h.strobeState h.s.publicKey []
    { h := { h with strobeState := r.2 }, buf := buf ++ r.1, ents := ents, err := none }
  else if tok = ['e', 'e'] then
    { h := { h with strobeState := strobeKEY (dh h.e h.re.publicKey) h.strobeState }
      buf := buf, ents := ents, err := none }
  else if tok = ['e', 's'] then
    if h.initiator then
      { h := { h with strobeState := strobeKEY (dh h.e h.rs.publicKey) h.strobeState }
        buf := buf, ents := ents, err := none }
    else
      { h := { h with strobeState := strobeKEY (dh h.s h.re.publicKey) h.strobeState }
        buf := buf, ents := ents, err := none }
  else if tok = ['s', 'e'] then
    if h.initiator then
      { h := { h with strobeState := strobeKEY (dh h.s h.re.publicKey) h.strobeState }
        buf := buf, ents := ents, err := none }
    else
      { h := { h with strobeState := strobeKEY (dh h.e h.rs.publicKey) h.strobeState }
        buf := buf, ents := ents, err := none }
  else if tok = ['s', 's'] then
    { h := { h with strobeState := strobeKEY (dh h.s h.rs.publicKey) h.strobeState }
      buf := buf, ents := ents, err := none }
  else
    { h := h, buf := buf, ents := ents, err := some DiscoError.InvalidToken }

/-- The token loop of `WriteMessage`: execute tokens in listed order, stopping
at the first failure. -/
def writeTokens (h : handshakeState) (buf : List Nat) (ents : List keyPair) :
    List (List Char) → TokenWriteOut
  | [] => { h := h, buf := buf, ents := ents, err := none }
  | t :: ts =>
    let r := writeToken h buf ents t
    match r.err with
    | some _ => r
    | none => writeTokens r.h r.buf r.ents ts

/-- `WriteMessage` (`disco.go:121-187`).  The payload is always sealed and
appended after the tokens; the consumed step is dropped from
`messagePattern` only after everything succeeded; on the last step the
split is performed and the two session states are returned. -/
def WriteMessage (h : handshakeState) (payload : List Nat) (messageBuffer : List Nat)
    (ents : List keyPair) : MessageOut :=
  match h.messagePattern with
  | [] =>
    { h := h, buf := messageBuffer, forks := none
      err := some DiscoError.ProtocolAlreadyComplete }
  | step :: rest =>
    let r := writeTokens h messageBuffer ents (stepTokens step)
    match r.err with
    | some err => { h := r.h, buf := r.buf, forks := none, err := some err }
    | none =>
      let q := sendAEAD r.h.strobeState payload []
      let h2 := { r.h with strobeState := q.2 }
      if rest.isEmpty then
        { h := { h2 with messagePattern := [] }
          buf := r.buf ++ q.1
          forks := some (split q.2)
          err := none }
      else
        { h := { h2 with messagePattern := rest }
          buf := r.buf ++ q.1
          forks := none
          err := none }

/-- One iteration of the token loop of `ReadMessage` (`disco.go:204-241`).
Slicing the incoming message out of range is the Go runtime panic on a
too-short buffer, modelled as `MalformedMessage`. -/
def readToken (h : handshakeState) (message : List Nat) (offset : Nat)
    (tok : List Char) : TokenReadOut :=
  if tok = ['e'] then
    if offset + dhLen ≤ message.length then
      let pub := (message.drop offset).take dhLen
      { h := { h with
                 re := { h.re with publicKey := pub },
                 strobeState := strobeRecvCLR false pub h.strobeState }
        offset := offset + dhLen
        err := none }
    else { h := h, offset := offset, err := some DiscoError.MalformedMessage }
  else if tok = ['s'] then
    if offset + (dhLen + 16) ≤ message.length then
      let ct := (message.drop offset).take (dhLen + 16)
      let r := recvAEAD h.strobeState ct []
      if r.2.2 then
        { h := { h with rs := { h.rs with publicKey := r.1 }, strobeState := r.2.1 }
          offset := offset + (dhLen + 16), err := none }
      else { h := h, offset := offset, err := some DiscoError.AuthenticationFailure }
    else { h := h, offset := offset, err := some DiscoError.MalformedMessage }
  else if tok = ['e', 'e'] then
    { h := { h with strobeState := strobeKEY (dh h.e h.re.publicKey) h.strobeState }
      offset := offset, err := none }
  else if tok = ['e', 's'] then
    if h.initiator then
      { h := { h with strobeState := strobeKEY (dh h.e h.rs.publicKey) h.strobeState }
        offset := offset, err := none }
    else
      { h := { h with strobeState := strobeKEY (dh h.s h.re.publicKey) h.strobeState }
        offset := offset, err := none }
  else if tok = ['s', 'e'] then
    if h.initiator then
      { h := { h with strobeState := strobeKEY (dh h.s h.re.publicKey) h.strobeState }
        offset := offset, err := none }
    else
      { h := { h with strobeState := strobeKEY (dh h.e h.rs.publicKey) h.strobeState }
        offset := offset, err := none }
  else if tok = ['s', 's'] then
    { h := { h with strobeState := strobeKEY (dh h.s h.rs.publicKey) h.strobeState }
      offset := offset, err := none }
  else
    { h := h, offset := offset, err := some DiscoError.InvalidToken }

/-- The token loop of `ReadMessage`: execute tokens in listed order with a
moving offset, stopping at the first failure. -/
def readTokens (h : handshakeState) (message : List Nat) (offset : Nat) :
    List (List Char) → TokenReadOut
  | [] => { h := h, offset := offset, err := none }
  | t :: ts =>
    let r := readToken h message offset t
    match r.err with
    | some _ => r
    | none => readTokens r.h message r.offset ts

/-- `ReadMessage` (`disco.go:194-268`).  The remaining bytes are opened as the
payload; the decrypted payload is appended to the caller's buffer; the
consumed step is dropped only after everything succeeded; on the last step
the split is performed. -/
def ReadMessage (h : handshakeState) (message : List Nat) (payloadBuffer : List Nat) :
    MessageOut :=
  match h.messagePattern with
  | [] =>
    { h := h, buf := payloadBuffer, forks := none
      err := some DiscoError.ProtocolAlreadyComplete }
  | step :: rest =>
    let r := readTokens h message 0 (stepTokens step)
    match r.err with
    | some err => { h := r.h, buf := payloadBuffer, forks := none, err := some err }
    | none =>
      let q := recvAEAD r.h.strobeState (message.drop r.offset) []
      if q.2.2 then
        let h2 := { r.h with strobeState := q.2.1 }
        if rest.isEmpty then
          { h := { h2 with messagePattern := [] }
            buf := payloadBuffer ++ q.1
            forks := some (split q.2.1)
            err := none }
        else
          { h := { h2 with messagePattern := rest }
            buf := payloadBuffer ++ q.1
            forks := none
            err := none }
      else
        { h := r.h, buf := payloadBuffer, forks := none
          err := some DiscoError.AuthenticationFailure }

/-- The label prefix `"DISCOv0.1.0_"` of `disco.go:57`. -/
def discoLabelPrefix : List Char :=
  ['D', 'I', 'S', 'C', 'O', 'v', '0', '.', '1', '.', '0', '_']

/-- One pre-message absorption block of `Initialize` (`disco.go:81-94`): when
the pre-message pattern string contains `s`, the given key-pair pointer is
dereferenced (a nil pointer is the Go runtime crash, modelled as
`NilPointerDereference`) and its public key absorbed as associated data. -/
def preAbsorb (hs : handshakeState) (hasS : Bool) (ptr : Option keyPair) :
    Except DiscoError handshakeState :=
  if hasS then
    match ptr with
    | none => Except.error DiscoError.NilPointerDereference
    | some kp =>
      Except.ok { hs with strobeState := strobeAD false kp.publicKey hs.strobeState }
  else Except.ok hs

/-- `Initialize` (`disco.go:51-99`), generalized over the pattern table it
reads (the Go function reads the package-level `patterns` map; `InitializeHS`
below instantiates the table). -/
def InitializeWithTable (tbl : List Char → Option handshakePattern)
    (name : List Char) (initiator : Bool) (prologue : List Nat)
    (s e rs re : Option keyPair) : Except DiscoError handshakeState :=
  match tbl name with
  | none => Except.error DiscoError.UnknownHandshakePattern
  | some pat =>
    let hs0 : handshakeState :=
      { strobeState :=
          strobeAD false prologue
            (strobeSetMacLen 16 (strobeInitSt (discoLabelPrefix ++ name)))
        s := s.getD zeroKeyPair
        e := e.getD zeroKeyPair
        rs := rs.getD zeroKeyPair
        re := re.getD zeroKeyPair
        initiator := initiator
        messagePattern := pat.messagePattern }
    match preAbsorb hs0 (pat.initiatorPreMessagePattern.contains 's')
        (if initiator then s else rs) with
    | Except.error err => Except.error err
    | Except.ok hs1 =>
      match preAbsorb hs1 (pat.responderPreMessagePattern.contains 's')
          (if initiator then rs else s) with
      | Except.error err => Except.error err
      | Except.ok hs2 => Except.ok hs2

/-- `Initialize` from `disco.go`, reading the built-in pattern table. -/
def InitializeHS (name : List Char) (initiator : Bool) (prologue : List Nat)
    (s e rs re : Option keyPair) : Except DiscoError handshakeState :=
  InitializeWithTable patterns name initiator prologue s e rs re

/-- The transcript of a successfully constructed handshake state. -/
def strobeOf (r : Except DiscoError handshakeState) : Option Strobe :=
  match r with
  | Except.ok hs => some hs.strobeState
  | Except.error _ => none

/-!
## Helper lemmas about the token loops
-/

theorem writeToken_messagePattern (h : handshakeState) (buf : List Nat)
    (ents : List keyPair) (t : List Char) :
    (writeToken h buf ents t).h.messagePattern = h.messagePattern := by
  unfold writeToken
  repeat' split
  all_goals rfl

theorem writeTokens_messagePattern (ts : List (List Char)) :
    ∀ (h : handshakeState) (buf : List Nat) (ents : List keyPair),
    (writeTokens h buf ents ts).h.messagePattern = h.messagePattern := by
  induction ts with
  | nil => intro h buf ents; rfl
  | cons t ts ih =>
    intro h buf ents
    unfold writeTokens
    cases hr : (writeToken h buf ents t).err with
    | some e =>
      simp only [hr]
      exact writeToken_messagePattern h buf ents t
    | none =>
      simp only [hr]
      rw [ih]
      exact writeToken_messagePattern h buf ents t

theorem readToken_messagePattern (h : handshakeState) (msg : List Nat)
    (off : Nat) (t : List Char) :
    (readToken h msg off t).h.messagePattern = h.messagePattern := by
  unfold readToken
  repeat' split
  all_goals first
    | rfl
    | (dsimp only; split; all_goals rfl)

theorem readTokens_messagePattern (ts : List (List Char)) :
    ∀ (h : handshakeState) (msg : List Nat) (off : Nat),
    (readTokens h msg off ts).h.messagePattern = h.messagePattern := by
  induction ts with
  | nil => intro h msg off; rfl
  | cons t ts ih =>
    intro h msg off
    unfold readTokens
    cases hr : (readToken h msg off t).err with
    | some e =>
      simp only [hr]
      exact readToken_messagePattern h msg off t
    | none =>
      simp only [hr]
      rw [ih]
      exact readToken_messagePattern h msg off t

theorem writeToken_setPattern (h : handshakeState) (buf : List Nat)
    (ents : List keyPair) (t : List Char) (P : List (List Char)) :
    writeToken { h with messagePattern := P } buf ents t =
      { writeToken h buf ents t with
        h := { (writeToken h buf ents t).h with messagePattern := P } } := by
  unfold writeToken
  repeat' split
  all_goals rfl

theorem writeTokens_setPattern (ts : List (List Char)) :
    ∀ (h : handshakeState) (buf : List Nat) (ents : List keyPair) (P : List (List Char)),
    writeTokens { h with messagePattern := P } buf ents ts =
      { writeTokens h buf ents ts with
        h := { (writeTokens h buf ents ts).h with messagePattern := P } } := by
  induction ts with
  | nil => intro h buf ents P; rfl
  | cons t ts ih =>
    intro h buf ents P
    unfold writeTokens
    rw [writeToken_setPattern]
    cases hr : (writeToken h buf ents t).err with
    | some e => simp only [hr]
    | none => simp only [hr]; rw [ih]

theorem readToken_setPattern (h : handshakeState) (msg : List Nat)
    (off : Nat) (t : List Char) (P : List (List Char)) :
    readToken { h with messagePattern := P } msg off t =
      { readToken h msg off t with
        h := { (readToken h msg off t).h with messagePattern := P } } := by
  unfold readToken
  repeat' split
  all_goals first
    | rfl
    | (dsimp only; split; all_goals rfl)

theorem readTokens_setPattern (ts : List (List Char)) :
    ∀ (h : handshakeState) (msg : List Nat) (off : Nat) (P : List (List Char)),
    readTokens { h with messagePattern := P } msg off ts =
      { readTokens h msg off ts with
        h := { (readTokens h msg off ts).h with messagePattern := P } } := by
  induction ts with
  | nil => intro h msg off P; rfl
  | cons t ts ih =>
    intro h msg off P
    unfold readTokens
    rw [readToken_setPattern]
    cases hr : (readToken h msg off t).err with
    | some e => simp only [hr]
    | none => simp only [hr]; rw [ih]

theorem writeToken_s_slot (h : handshakeState) (buf : List Nat)
    (ents : List keyPair) (t : List Char) :
    (writeToken h buf ents t).h.s = h.s := by
  unfold writeToken
  repeat' split
  all_goals rfl

/-- Follows the spec's wire-layout words (refinement reference): the number of
message bytes a token contributes — `dhLen` for `e`, `dhLen + tagLen` for
`s`, none for the DH tokens. -/
def specTokenWireLen (tok : List Char) : Nat :=
  if tok = ['e'] then dhLen else if tok = ['s'] then dhLen + 16 else 0

theorem macTag_length (st : Strobe) : (macTag st).length = 16 := by
  simp [macTag]

theorem writeToken_buf_length (h : handshakeState) (buf : List Nat)
    (ents : List keyPair) (t : List Char)
    (hs : h.s.publicKey.length = dhLen)
    (hents : ∀ kp ∈ ents, kp.publicKey.length = dhLen) :
    (writeToken h buf ents t).err = none →
    (writeToken h buf ents t).buf.length = buf.length + specTokenWireLen t := by
  unfold writeToken
  split
  · rename_i ht
    intro _
    subst ht
    simp only [specTokenWireLen, if_pos rfl, List.length_append]
    congr 1
    cases ents with
    | nil => rfl
    | cons kp l => exact hents kp (List.mem_cons_self kp l)
  · split
    · rename_i ht' ht
      intro _
      subst ht
      simp [specTokenWireLen, sendAEAD, macTag_length, hs]
    · repeat' split
      all_goals intro he
      all_goals simp_all [specTokenWireLen]

theorem writeToken_ents_wf (h : handshakeState) (buf : List Nat)
    (ents : List keyPair) (t : List Char) (P : keyPair → Prop)
    (hents : ∀ kp ∈ ents, P kp) :
    ∀ kp ∈ (writeToken h buf ents t).ents, P kp := by
  unfold writeToken
  repeat' split
  all_goals intro kp hkp
  all_goals first
    | exact hents kp hkp
    | exact hents kp (List.mem_of_mem_tail hkp)

theorem writeTokens_buf_length (ts : List (List Char)) :
    ∀ (h : handshakeState) (buf : List Nat) (ents : List keyPair),
    h.s.publicKey.length = dhLen →
    (∀ kp ∈ ents, kp.publicKey.length = dhLen) →
    (writeTokens h buf ents ts).err = none →
    (writeTokens h buf ents ts).buf.length =
      buf.length + (ts.map specTokenWireLen).sum := by
  induction ts with
  | nil => intro h buf ents _ _ _; simp [writeTokens]
  | cons t ts ih =>
    intro h buf ents hs hents herr
    unfold writeTokens at herr ⊢
    cases hr : (writeToken h buf ents t).err with
    | some e => simp_all
    | none =>
      simp only [hr] at herr ⊢
      have hs' : (writeToken h buf ents t).h.s.publicKey.length = dhLen := by
        rw [writeToken_s_slot]; exact hs
      have hents' : ∀ kp ∈ (writeToken h buf ents t).ents, kp.publicKey.length = dhLen :=
        writeToken_ents_wf h buf ents t _ hents
      rw [ih _ _ _ hs' hents' herr]
      rw [writeToken_buf_length h buf ents t hs hents hr]
      simp [List.sum_cons]
      omega

/-- C7: for every step and payload, a successful `WriteMessage` grows the
outbound buffer by exactly the sum, over the step's tokens, of `dhLen`
bytes for `e`, `dhLen + 16` bytes for `s` and `0` bytes for the DH tokens,
plus `len(payload) + 16` bytes of sealed payload appended after the
tokens. -/
theorem c7_write_length (h : handshakeState) (payload buf : List Nat)
    (ents : List keyPair) (step : List Char) (rest : List (List Char))
    (hmp : h.messagePattern = step :: rest)
    (hs : h.s.publicKey.length = dhLen)
    (hents : ∀ kp ∈ ents, kp.publicKey.length = dhLen)
    (herr : (WriteMessage h payload buf ents).err = none) :
    (WriteMessage h payload buf ents).buf.length =
      buf.length + ((stepTokens step).map specTokenWireLen).sum
        + (payload.length + 16) := by
  unfold WriteMessage at herr ⊢
  rw [hmp] at herr ⊢
  cases hr : (writeTokens h buf ents (stepTokens step)).err with
  | some e => simp_all
  | none =>
    simp only [hr] at herr ⊢
    have hlen := writeTokens_buf_length (stepTokens step) h buf ents hs hents hr
    cases hrest : rest.isEmpty
    all_goals (simp [hrest, sendAEAD, macTag_length, hlen]; try omega)

/-- C2: executing `es` mixes into the transcript DH(local ephemeral, remote
static) when the local role is initiator and DH(local static, remote
ephemeral) otherwise, and `se` the mirrored selection, identically in the
write-side and the read-side token loops. -/
theorem c2_dh_role_selection (h : handshakeState) (buf : List Nat)
    (ents : List keyPair) (msg : List Nat) (off : Nat) :
    writeToken h buf ents ['e', 's'] =
      { h := { h with strobeState := (strobeKEY
            (dh (if h.initiator then h.e else h.s)
              (if h.initiator then h.rs.publicKey else h.re.publicKey))
            h.strobeState) }
        buf := buf, ents := ents, err := none } ∧
    writeToken h buf ents ['s', 'e'] =
      { h := { h with strobeState := (strobeKEY
            (dh (if h.initiator then h.s else h.e)
              (if h.initiator then h.re.publicKey else h.rs.publicKey))
            h.strobeState) }
        buf := buf, ents := ents, err := none } ∧
    readToken h msg off ['e', 's'] =
      { h := { h with strobeState := (strobeKEY
            (dh (if h.initiator then h.e else h.s)
              (if h.initiator then h.rs.publicKey else h.re.publicKey))
            h.strobeState) }
        offset := off, err := none } ∧
    readToken h msg off ['s', 'e'] =
      { h := { h with strobeState := (strobeKEY
            (dh (if h.initiator then h.s else h.e)
              (if h.initiator then h.re.publicKey else h.rs.publicKey))
            h.strobeState) }
        offset := off, err := none } := by
  rcases h with ⟨st, sk, ek, rsk, rek, ini, mp⟩
  cases ini
  · exact ⟨rfl, rfl, rfl, rfl⟩
  · exact ⟨rfl, rfl, rfl, rfl⟩

/-- Concrete run for claim C3: initiator instance of "XX" constructed with no
static key pair supplied (the slot keeps the zero sentinel). -/
def c3init : handshakeState :=
  (InitializeHS ['X', 'X'] true [] none none none none).toOption.getD
    { strobeState := [], s := zeroKeyPair, e := zeroKeyPair, rs := zeroKeyPair
      re := zeroKeyPair, initiator := true, messagePattern := [] }

/-- C3 run, step 1: the initiator writes `->e`. -/
def c3afterWrite1 : MessageOut :=
  WriteMessage c3init [] []
    [{ privateKey := List.replicate 32 1, publicKey := List.replicate 32 2 }]

/-- C3 run: an incoming step-2 message (`<-e, ee, s, es`) whose two
authentication tags are valid for this instance's transcript. -/
def c3msg2 : List Nat :=
  List.replicate 32 7 ++ List.replicate 32 9 ++
    List.replicate 16 8 ++ List.replicate 16 10

/-- C3 run, step 2: the initiator reads `<-e, ee, s, es`. -/
def c3afterRead2 : MessageOut := ReadMessage c3afterWrite1.h c3msg2 []

/-- C3 run, step 3: the initiator writes `->s, se` with its static-key slot
still the absent (zero) sentinel. -/
def c3afterWrite3 : MessageOut := WriteMessage c3afterRead2.h [] [] []

/-- C3 counterexample: an "XX" initiator that never supplied a static key
pair reaches step 3 (`->s, se`), whose `s` and `se` tokens require the
local static slot, and the `WriteMessage` call succeeds (no failure at all,
in particular no `MissingKeyMaterial`), completing the handshake with the
zero sentinel key instead of failing as the claim states. -/
theorem c3_missing_key_counterexample :
    c3afterWrite1.err = none ∧ c3afterRead2.err = none ∧
    c3afterRead2.h.s = zeroKeyPair ∧
    c3afterRead2.h.messagePattern = [['-', '>', 's', ',', ' ', 's', 'e']] ∧
    c3afterWrite3.err = none ∧ c3afterWrite3.forks.isSome = true := by decide

/-- C3 amended: no token performs a key-material presence check.  Every
write-side `s`/`ee`/`es`/`se`/`ss` token and every read-side DH token
succeeds unconditionally — whatever the key-pair slots contain, including
the zero sentinel of an absent slot — so an absent slot is used as the
zero-valued key material rather than failing with `MissingKeyMaterial`. -/
theorem c3_no_missing_key_check (h : handshakeState) (buf : List Nat)
    (ents : List keyPair) (msg : List Nat) (off : Nat) :
    (writeToken h buf ents ['s']).err = none ∧
    (writeToken h buf ents ['e', 'e']).err = none ∧
    (writeToken h buf ents ['e', 's']).err = none ∧
    (writeToken h buf ents ['s', 'e']).err = none ∧
    (writeToken h buf ents ['s', 's']).err = none ∧
    (readToken h msg off ['e', 'e']).err = none ∧
    (readToken h msg off ['e', 's']).err = none ∧
    (readToken h msg off ['s', 'e']).err = none ∧
    (readToken h msg off ['s', 's']).err = none := by
  rcases h with ⟨st, sk, ek, rsk, rek, ini, mp⟩
  cases ini
  · exact ⟨rfl, rfl, rfl, rfl, rfl, rfl, rfl, rfl, rfl⟩
  · exact ⟨rfl, rfl, rfl, rfl, rfl, rfl, rfl, rfl, rfl⟩

/-- C4: every successful `WriteMessage`/`ReadMessage` call removes exactly
the first step from `messagePattern` (the new pattern is the tail of the
old), and once the pattern is empty every further call fails with
`ProtocolAlreadyComplete`. -/
theorem c4_step_consumption (h : handshakeState) (payload buf : List Nat)
    (ents : List keyPair) (msg pbuf : List Nat) :
    ((WriteMessage h payload buf ents).err = none →
      (WriteMessage h payload buf ents).h.messagePattern = h.messagePattern.tail) ∧
    ((ReadMessage h msg pbuf).err = none →
      (ReadMessage h msg pbuf).h.messagePattern = h.messagePattern.tail) ∧
    (h.messagePattern = [] →
      (WriteMessage h payload buf ents).err = some DiscoError.ProtocolAlreadyComplete ∧
      (ReadMessage h msg pbuf).err = some DiscoError.ProtocolAlreadyComplete) := by
  refine ⟨?_, ?_, ?_⟩
  · intro herr
    unfold WriteMessage at herr ⊢
    cases hmp : h.messagePattern with
    | nil => rw [hmp] at herr; simp at herr
    | cons step rest =>
      cases hr : (writeTokens h buf ents (stepTokens step)).err with
      | some e => simp_all
      | none =>
        simp only [hr] at herr ⊢
        cases hrest : rest.isEmpty with
        | true =>
          rw [List.isEmpty_iff] at hrest
          simp [hrest]
        | false => simp [hrest]
  · intro herr
    unfold ReadMessage at herr ⊢
    cases hmp : h.messagePattern with
    | nil => rw [hmp] at herr; simp at herr
    | cons step rest =>
      cases hr : (readTokens h msg 0 (stepTokens step)).err with
      | some e => simp_all
      | none =>
        simp only [hr] at herr ⊢
        cases hq : (recvAEAD (readTokens h msg 0 (stepTokens step)).h.strobeState
            (msg.drop (readTokens h msg 0 (stepTokens step)).offset) []).2.2 with
        | false => simp_all
        | true =>
          simp only [hq] at herr ⊢
          cases hrest : rest.isEmpty with
          | true =>
            rw [List.isEmpty_iff] at hrest
            simp [hrest]
          | false => simp [hrest]
  · intro hmp
    unfold WriteMessage ReadMessage
    rw [hmp]
    exact ⟨rfl, rfl⟩

/-- C8: a failing `WriteMessage` or `ReadMessage` call leaves
`messagePattern` (the remaining steps) unchanged — the consumed step is
dropped only after every token and the payload seal/open succeeded. -/
theorem c8_failure_keeps_steps (h : handshakeState) (payload buf : List Nat)
    (ents : List keyPair) (msg pbuf : List Nat) :
    (∀ e, (WriteMessage h payload buf ents).err = some e →
      (WriteMessage h payload buf ents).h.messagePattern = h.messagePattern) ∧
    (∀ e, (ReadMessage h msg pbuf).err = some e →
      (ReadMessage h msg pbuf).h.messagePattern = h.messagePattern) := by
  constructor
  · intro e
    unfold WriteMessage
    cases hmp : h.messagePattern with
    | nil => intro _; exact hmp
    | cons step rest =>
      cases hr : (writeTokens h buf ents (stepTokens step)).err with
      | some e2 =>
        intro _
        simp only [hr]
        rw [writeTokens_messagePattern]
        exact hmp
      | none =>
        intro herr
        simp only [hr] at herr
        cases hrest : rest.isEmpty
        · simp only [hrest] at herr
          simp at herr
        · simp only [hrest] at herr
          simp at herr
  · intro e
    unfold ReadMessage
    cases hmp : h.messagePattern with
    | nil => intro _; exact hmp
    | cons step rest =>
      cases hr : (readTokens h msg 0 (stepTokens step)).err with
      | some e2 =>
        intro _
        simp only [hr]
        rw [readTokens_messagePattern]
        exact hmp
      | none =>
        cases hq : (recvAEAD (readTokens h msg 0 (stepTokens step)).h.strobeState
            (msg.drop (readTokens h msg 0 (stepTokens step)).offset) []).2.2 with
        | false =>
          intro _
          simp only [hr, hq]
          simp [readTokens_messagePattern, hmp]
        | true =>
          intro herr
          simp only [hr, hq] at herr
          cases hrest : rest.isEmpty
          · simp only [hrest] at herr
            simp at herr
          · simp only [hrest] at herr
            simp at herr

theorem writeMessage_final_forks (h : handshakeState) (payload buf : List Nat)
    (ents : List keyPair) (step : List Char)
    (hmp : h.messagePattern = [step])
    (herr : (WriteMessage h payload buf ents).err = none) :
    (WriteMessage h payload buf ents).forks =
      some (split (WriteMessage h payload buf ents).h.strobeState) := by
  unfold WriteMessage at herr ⊢
  rw [hmp] at herr ⊢
  cases hr : (writeTokens h buf ents (stepTokens step)).err with
  | some e => simp_all
  | none =>
    simp only [hr] at herr ⊢
    simp

theorem readMessage_final_forks (h : handshakeState) (msg pbuf : List Nat)
    (step : List Char)
    (hmp : h.messagePattern = [step])
    (herr : (ReadMessage h msg pbuf).err = none) :
    (ReadMessage h msg pbuf).forks =
      some (split (ReadMessage h msg pbuf).h.strobeState) := by
  unfold ReadMessage at herr ⊢
  rw [hmp] at herr ⊢
  cases hr : (readTokens h msg 0 (stepTokens step)).err with
  | some e => simp_all
  | none =>
    simp only [hr] at herr ⊢
    cases hq : (recvAEAD (readTokens h msg 0 (stepTokens step)).h.strobeState
        (msg.drop (readTokens h msg 0 (stepTokens step)).offset) []).2.2 with
    | false => simp_all
    | true =>
      simp only [hq] at herr ⊢
      simp

/-- C1: on the final step, both `WriteMessage` and `ReadMessage` return the
fork pair as `split` of the post-call transcript, where `split` clones the
transcript, absorbs the literal label "initiator" and ratchets for fork A,
and absorbs "responder" into the original and ratchets for fork B.  `split`
takes no role input, so the pair is the same function of the final
transcript whichever role (and whichever of the two calls) performs it:
two final calls ending with equal transcripts return equal fork pairs. -/
theorem c1_final_split (h : handshakeState) (payload buf : List Nat)
    (ents : List keyPair) (msg pbuf : List Nat) (step : List Char)
    (hmp : h.messagePattern = [step]) :
    ((WriteMessage h payload buf ents).err = none →
      (WriteMessage h payload buf ents).forks =
        some (split (WriteMessage h payload buf ents).h.strobeState)) ∧
    ((ReadMessage h msg pbuf).err = none →
      (ReadMessage h msg pbuf).forks =
        some (split (ReadMessage h msg pbuf).h.strobeState)) ∧
    (∀ st : Strobe, split st =
      (strobeRATCHET strobeR (strobeAD true initiatorLabel (strobeClone st)),
       strobeRATCHET strobeR (strobeAD true responderLabel st))) ∧
    (∀ (h2 : handshakeState) (msg2 pbuf2 : List Nat) (step2 : List Char),
      h2.messagePattern = [step2] →
      (WriteMessage h payload buf ents).err = none →
      (ReadMessage h2 msg2 pbuf2).err = none →
      (WriteMessage h payload buf ents).h.strobeState =
        (ReadMessage h2 msg2 pbuf2).h.strobeState →
      (WriteMessage h payload buf ents).forks = (ReadMessage h2 msg2 pbuf2).forks) := by
  refine ⟨fun herr => writeMessage_final_forks h payload buf ents step hmp herr,
    fun herr => readMessage_final_forks h msg pbuf step hmp herr,
    fun st => rfl,
    fun h2 msg2 pbuf2 step2 hmp2 hw hr2 heq => ?_⟩
  rw [writeMessage_final_forks h payload buf ents step hmp hw,
    readMessage_final_forks h2 msg2 pbuf2 step2 hmp2 hr2, heq]

/-- C6: an incoming buffer shorter than the current token sequence requires
makes `ReadMessage` fail with `MalformedMessage`: fewer than `dhLen` bytes
remaining at an `e` token, or fewer than `dhLen + 16` at an `s` token
(in the source, the out-of-range slice of the message). -/
theorem c6_short_message (h : handshakeState) (msg pbuf : List Nat)
    (step : List Char) (rest ts : List (List Char)) (off : Nat) :
    (msg.length < off + dhLen →
      (readToken h msg off ['e']).err = some DiscoError.MalformedMessage) ∧
    (msg.length < off + (dhLen + 16) →
      (readToken h msg off ['s']).err = some DiscoError.MalformedMessage) ∧
    (h.messagePattern = step :: rest → stepTokens step = ['e'] :: ts →
      msg.length < dhLen →
      (ReadMessage h msg pbuf).err = some DiscoError.MalformedMessage) ∧
    (h.messagePattern = step :: rest → stepTokens step = ['s'] :: ts →
      msg.length < dhLen + 16 →
      (ReadMessage h msg pbuf).err = some DiscoError.MalformedMessage) := by
  refine ⟨?_, ?_, ?_, ?_⟩
  · intro hlen
    unfold readToken
    rw [if_pos rfl, if_neg (by omega)]
  · intro hlen
    unfold readToken
    rw [if_neg (by decide), if_pos rfl, if_neg (by omega)]
  · intro hmp hst hlen
    have hrt : (readToken h msg 0 ['e']).err = some DiscoError.MalformedMessage := by
      unfold readToken
      rw [if_pos rfl, if_neg (by omega)]
    unfold ReadMessage
    rw [hmp]
    dsimp only
    rw [hst]
    simp [readTokens, hrt]
  · intro hmp hst hlen
    have hrt : (readToken h msg 0 ['s']).err = some DiscoError.MalformedMessage := by
      unfold readToken
      rw [if_neg (by decide), if_pos rfl, if_neg (by omega)]
    unfold ReadMessage
    rw [hmp]
    dsimp only
    rw [hst]
    simp [readTokens, hrt]

/-- C5: pre-message absorption order.  For any registry and pattern, the
transcript produced by `Initialize` is the same for the initiator instance
(local static `kpI`, remote static `kpR`) and the responder instance
(local static `kpR`, remote static `kpI`); and when both parties have an
`s` pre-message token, the initiator's static public key `kpI` is absorbed
first, then the responder's `kpR`, after the label and the prologue. -/
theorem c5_premessage_order (tbl : List Char → Option handshakePattern)
    (name : List Char) (pro : List Nat) (kpI kpR : keyPair)
    (e1 e2 re1 re2 : Option keyPair) :
    strobeOf (InitializeWithTable tbl name true pro (some kpI) e1 (some kpR) re1) =
      strobeOf (InitializeWithTable tbl name false pro (some kpR) e2 (some kpI) re2) ∧
    (∀ pat, tbl name = some pat →
      pat.initiatorPreMessagePattern.contains 's' = true →
      pat.responderPreMessagePattern.contains 's' = true →
      strobeOf (InitializeWithTable tbl name true pro (some kpI) e1 (some kpR) re1) =
        some (strobeAD false kpR.publicKey (strobeAD false kpI.publicKey
          (strobeAD false pro (strobeSetMacLen 16
            (strobeInitSt (discoLabelPrefix ++ name))))))) := by
  cases htbl : tbl name with
  | none =>
    constructor
    · unfold InitializeWithTable
      rw [htbl]
    · intro pat hpat
      exact Option.noConfusion hpat
  | some pat =>
    constructor
    · unfold InitializeWithTable
      rw [htbl]
      dsimp only
      cases hc1 : pat.initiatorPreMessagePattern.contains 's'
      all_goals cases hc2 : pat.responderPreMessagePattern.contains 's'
      all_goals simp [preAbsorb, hc1, hc2, strobeOf]
    · intro pat2 hpat2 hc1 hc2
      injection hpat2 with hpe
      subst hpe
      have hm1 : 's' ∈ pat.initiatorPreMessagePattern := by simpa using hc1
      have hm2 : 's' ∈ pat.responderPreMessagePattern := by simpa using hc2
      unfold InitializeWithTable
      rw [htbl]
      dsimp only
      simp [preAbsorb, hm1, hm2, strobeOf]

/-- C10: for any registry entry whose initiator (resp. responder)
pre-message pattern contains `s`, `Initialize` dereferences the
corresponding key-pair pointer argument without a nil check — `s` when the
local role holds the pre-shared key, `rs` otherwise — so passing `none`
there crashes with a nil-pointer dereference (modelled as the
`NilPointerDereference` outcome) instead of returning any typed failure. -/
theorem c10_nil_premessage_key (tbl : List Char → Option handshakePattern)
    (name : List Char) (pat : handshakePattern) (pro : List Nat)
    (e re : Option keyPair) (hpat : tbl name = some pat) :
    (pat.initiatorPreMessagePattern.contains 's' = true →
      InitializeWithTable tbl name true pro none e none re =
        Except.error DiscoError.NilPointerDereference ∧
      InitializeWithTable tbl name false pro none e none re =
        Except.error DiscoError.NilPointerDereference) ∧
    (pat.responderPreMessagePattern.contains 's' = true →
      ∀ kp : keyPair,
      InitializeWithTable tbl name true pro (some kp) e none re =
        Except.error DiscoError.NilPointerDereference ∧
      InitializeWithTable tbl name false pro none e (some kp) re =
        Except.error DiscoError.NilPointerDereference) := by
  constructor
  · intro hc1
    have hm1 : 's' ∈ pat.initiatorPreMessagePattern := by simpa using hc1
    constructor
    · unfold InitializeWithTable
      rw [hpat]
      dsimp only
      simp [preAbsorb, hm1]
    · unfold InitializeWithTable
      rw [hpat]
      dsimp only
      simp [preAbsorb, hm1]
  · intro hc2 kp
    have hm2 : 's' ∈ pat.responderPreMessagePattern := by simpa using hc2
    constructor
    · unfold InitializeWithTable
      rw [hpat]
      dsimp only
      cases hc1 : pat.initiatorPreMessagePattern.contains 's'
      · have hm1 : 's' ∉ pat.initiatorPreMessagePattern := by simpa using hc1
        simp [preAbsorb, hm1, hm2]
      · have hm1 : 's' ∈ pat.initiatorPreMessagePattern := by simpa using hc1
        simp [preAbsorb, hm1, hm2]
    · unfold InitializeWithTable
      rw [hpat]
      dsimp only
      cases hc1 : pat.initiatorPreMessagePattern.contains 's'
      · have hm1 : 's' ∉ pat.initiatorPreMessagePattern := by simpa using hc1
        simp [preAbsorb, hm1, hm2]
      · have hm1 : 's' ∈ pat.initiatorPreMessagePattern := by simpa using hc1
        simp [preAbsorb, hm1, hm2]

theorem writeMessage_step_cong (h : handshakeState) (payload buf : List Nat)
    (ents : List keyPair) (s1 s2 : List Char) (rest : List (List Char))
    (hst : stepTokens s1 = stepTokens s2) :
    (WriteMessage { h with messagePattern := s1 :: rest } payload buf ents).err =
      (WriteMessage { h with messagePattern := s2 :: rest } payload buf ents).err ∧
    (WriteMessage { h with messagePattern := s1 :: rest } payload buf ents).buf =
      (WriteMessage { h with messagePattern := s2 :: rest } payload buf ents).buf ∧
    (WriteMessage { h with messagePattern := s1 :: rest } payload buf ents).forks =
      (WriteMessage { h with messagePattern := s2 :: rest } payload buf ents).forks ∧
    { (WriteMessage { h with messagePattern := s1 :: rest } payload buf ents).h with
        messagePattern := [] } =
      { (WriteMessage { h with messagePattern := s2 :: rest } payload buf ents).h with
        messagePattern := [] } := by
  unfold WriteMessage
  dsimp only
  rw [hst]
  rw [writeTokens_setPattern (stepTokens s2) h buf ents (s1 :: rest),
      writeTokens_setPattern (stepTokens s2) h buf ents (s2 :: rest)]
  cases hr : (writeTokens h buf ents (stepTokens s2)).err with
  | some e => simp [hr]
  | none =>
    cases hrest : rest.isEmpty
    all_goals simp [hr, hrest]

theorem readMessage_step_cong (h : handshakeState) (msg pbuf : List Nat)
    (s1 s2 : List Char) (rest : List (List Char))
    (hst : stepTokens s1 = stepTokens s2) :
    (ReadMessage { h with messagePattern := s1 :: rest } msg pbuf).err =
      (ReadMessage { h with messagePattern := s2 :: rest } msg pbuf).err ∧
    (ReadMessage { h with messagePattern := s1 :: rest } msg pbuf).buf =
      (ReadMessage { h with messagePattern := s2 :: rest } msg pbuf).buf ∧
    (ReadMessage { h with messagePattern := s1 :: rest } msg pbuf).forks =
      (ReadMessage { h with messagePattern := s2 :: rest } msg pbuf).forks ∧
    { (ReadMessage { h with messagePattern := s1 :: rest } msg pbuf).h with
        messagePattern := [] } =
      { (ReadMessage { h with messagePattern := s2 :: rest } msg pbuf).h with
        messagePattern := [] } := by
  unfold ReadMessage
  dsimp only
  rw [hst]
  rw [readTokens_setPattern (stepTokens s2) h msg 0 (s1 :: rest),
      readTokens_setPattern (stepTokens s2) h msg 0 (s2 :: rest)]
  cases hr : (readTokens h msg 0 (stepTokens s2)).err with
  | some e => simp [hr]
  | none =>
    cases hq : (recvAEAD (readTokens h msg 0 (stepTokens s2)).h.strobeState
        (msg.drop (readTokens h msg 0 (stepTokens s2)).offset) []).2.2 with
    | false => simp [hr, hq]
    | true =>
      cases hrest : rest.isEmpty
      all_goals simp [hr, hq, hrest]

/-- C9: neither `WriteMessage` nor `ReadMessage` inspects the direction
marker of the current step: the first two characters are stripped
unconditionally, so the token list — and with it the error, the produced
bytes, the forks and the resulting state (up to the stored step text) — is
the same for any two markers, and an out-of-turn call is not rejected. -/
theorem c9_direction_ignored (h : handshakeState) (toks : List Char)
    (rest : List (List Char)) (d1 d2 : List Char)
    (payload buf msg pbuf : List Nat) (ents : List keyPair)
    (hd1 : d1.length = 2) (hd2 : d2.length = 2) :
    stepTokens (d1 ++ toks) = stepTokens (d2 ++ toks) ∧
    ((WriteMessage { h with messagePattern := (d1 ++ toks) :: rest } payload buf ents).err =
      (WriteMessage { h with messagePattern := (d2 ++ toks) :: rest } payload buf ents).err ∧
     (WriteMessage { h with messagePattern := (d1 ++ toks) :: rest } payload buf ents).buf =
      (WriteMessage { h with messagePattern := (d2 ++ toks) :: rest } payload buf ents).buf ∧
     (WriteMessage { h with messagePattern := (d1 ++ toks) :: rest } payload buf ents).forks =
      (WriteMessage { h with messagePattern := (d2 ++ toks) :: rest } payload buf ents).forks ∧
     { (WriteMessage { h with messagePattern := (d1 ++ toks) :: rest } payload buf ents).h with
         messagePattern := [] } =
       { (WriteMessage { h with messagePattern := (d2 ++ toks) :: rest } payload buf ents).h with
         messagePattern := [] }) ∧
    ((ReadMessage { h with messagePattern := (d1 ++ toks) :: rest } msg pbuf).err =
      (ReadMessage { h with messagePattern := (d2 ++ toks) :: rest } msg pbuf).err ∧
     (ReadMessage { h with messagePattern := (d1 ++ toks) :: rest } msg pbuf).buf =
      (ReadMessage { h with messagePattern := (d2 ++ toks) :: rest } msg pbuf).buf ∧
     (ReadMessage { h with messagePattern := (d1 ++ toks) :: rest } msg pbuf).forks =
      (ReadMessage { h with messagePattern := (d2 ++ toks) :: rest } msg pbuf).forks ∧
     { (ReadMessage { h with messagePattern := (d1 ++ toks) :: rest } msg pbuf).h with
         messagePattern := [] } =
       { (ReadMessage { h with messagePattern := (d2 ++ toks) :: rest } msg pbuf).h with
         messagePattern := [] }) := by
  have hst : stepTokens (d1 ++ toks) = stepTokens (d2 ++ toks) := by
    unfold stepTokens
    rw [show (d1 ++ toks).drop 2 = toks by rw [← hd1]; exact List.drop_left d1 toks,
        show (d2 ++ toks).drop 2 = toks by rw [← hd2]; exact List.drop_left d2 toks]
  exact ⟨hst,
    writeMessage_step_cong h payload buf ents (d1 ++ toks) (d2 ++ toks) rest hst,
    readMessage_step_cong h msg pbuf (d1 ++ toks) (d2 ++ toks) rest hst⟩

/-- A single-step handshake state used to witness the final-split theorem. -/
def c1state : handshakeState :=
  { strobeState := [], s := zeroKeyPair, e := zeroKeyPair, rs := zeroKeyPair
    re := zeroKeyPair, initiator := true, messagePattern := [['-', '>', 'e']] }

/-- A message whose tag is valid for `c1state`, for the read side. -/
def c1msg : List Nat := List.replicate 32 5 ++ List.replicate 16 2

theorem c1_final_split_witness :
    (WriteMessage c1state [] [] []).forks =
      some (split (WriteMessage c1state [] [] []).h.strobeState) ∧
    (ReadMessage c1state c1msg []).forks =
      some (split (ReadMessage c1state c1msg []).h.strobeState) :=
  ⟨(c1_final_split c1state [] [] [] c1msg [] ['-', '>', 'e'] rfl).1 (by decide),
   (c1_final_split c1state [] [] [] c1msg [] ['-', '>', 'e'] rfl).2.1 (by decide)⟩

/-- A two-step handshake state used to witness step consumption. -/
def c4state : handshakeState :=
  { strobeState := [], s := zeroKeyPair, e := zeroKeyPair, rs := zeroKeyPair
    re := zeroKeyPair, initiator := true
    messagePattern := [['-', '>', 'e'], ['<', '-', 'e']] }

/-- A completed (empty-pattern) handshake state. -/
def c4empty : handshakeState :=
  { strobeState := [], s := zeroKeyPair, e := zeroKeyPair, rs := zeroKeyPair
    re := zeroKeyPair, initiator := true, messagePattern := [] }

theorem c4_step_consumption_witness :
    (WriteMessage c4state [] [] []).h.messagePattern = c4state.messagePattern.tail ∧
    (WriteMessage c4empty [] [] []).err = some DiscoError.ProtocolAlreadyComplete ∧
    (ReadMessage c4empty [] []).err = some DiscoError.ProtocolAlreadyComplete :=
  ⟨(c4_step_consumption c4state [] [] [] [] []).1 (by decide),
   ((c4_step_consumption c4empty [] [] [] [] []).2.2 rfl).1,
   ((c4_step_consumption c4empty [] [] [] [] []).2.2 rfl).2⟩

/-- A pattern with `s` pre-message tokens on both sides (as in Noise "KK"),
used to witness the pre-message claims; the shipped registry has no such
pattern, so it is registered in a test table. -/
def kkPattern : handshakePattern :=
  { initiatorPreMessagePattern := ['s']
    responderPreMessagePattern := ['s']
    messagePattern := [['-', '>', 'e']] }

/-- A registry holding `kkPattern` under the name "KK". -/
def kkTable : List Char → Option handshakePattern := fun n =>
  if n = ['K', 'K'] then some kkPattern else none

/-- The initiator's static key pair in the pre-message witnesses. -/
def c5kpA : keyPair :=
  { privateKey := List.replicate 32 3, publicKey := List.replicate 32 4 }

/-- The responder's static key pair in the pre-message witnesses. -/
def c5kpB : keyPair :=
  { privateKey := List.replicate 32 5, publicKey := List.replicate 32 6 }

theorem c5_premessage_order_witness :
    strobeOf (InitializeWithTable kkTable ['K', 'K'] true []
        (some c5kpA) none (some c5kpB) none) =
      strobeOf (InitializeWithTable kkTable ['K', 'K'] false []
        (some c5kpB) none (some c5kpA) none) ∧
    strobeOf (InitializeWithTable kkTable ['K', 'K'] true []
        (some c5kpA) none (some c5kpB) none) =
      some (strobeAD false c5kpB.publicKey (strobeAD false c5kpA.publicKey
        (strobeAD false [] (strobeSetMacLen 16
          (strobeInitSt (discoLabelPrefix ++ ['K', 'K'])))))) :=
  ⟨(c5_premessage_order kkTable ['K', 'K'] [] c5kpA c5kpB none none none none).1,
   (c5_premessage_order kkTable ['K', 'K'] [] c5kpA c5kpB none none none none).2
     kkPattern rfl rfl rfl⟩

/-- A handshake state expecting step `->e`, for the short-message witness. -/
def c6stateE : handshakeState :=
  { strobeState := [], s := zeroKeyPair, e := zeroKeyPair, rs := zeroKeyPair
    re := zeroKeyPair, initiator := true, messagePattern := [['-', '>', 'e']] }

/-- A handshake state expecting step `->s`, for the short-message witness. -/
def c6stateS : handshakeState :=
  { strobeState := [], s := zeroKeyPair, e := zeroKeyPair, rs := zeroKeyPair
    re := zeroKeyPair, initiator := true, messagePattern := [['-', '>', 's']] }

theorem c6_short_message_witness :
    (readToken c6stateE [] 0 ['e']).err = some DiscoError.MalformedMessage ∧
    (readToken c6stateE [] 0 ['s']).err = some DiscoError.MalformedMessage ∧
    (ReadMessage c6stateE [] []).err = some DiscoError.MalformedMessage ∧
    (ReadMessage c6stateS [] []).err = some DiscoError.MalformedMessage :=
  ⟨(c6_short_message c6stateE [] [] ['-', '>', 'e'] [] [] 0).1 (by decide),
   (c6_short_message c6stateE [] [] ['-', '>', 'e'] [] [] 0).2.1 (by decide),
   (c6_short_message c6stateE [] [] ['-', '>', 'e'] [] [] 0).2.2.1 rfl (by decide) (by decide),
   (c6_short_message c6stateS [] [] ['-', '>', 's'] [] [] 0).2.2.2 rfl (by decide) (by decide)⟩

/-- A handshake state at the "XX" step `->s, se`, for the length witness. -/
def c7state : handshakeState :=
  { strobeState := [], s := zeroKeyPair, e := zeroKeyPair, rs := zeroKeyPair
    re := zeroKeyPair, initiator := true
    messagePattern := [['-', '>', 's', ',', ' ', 's', 'e']] }

theorem c7_write_length_witness :
    (WriteMessage c7state [] [] []).buf.length =
      ([] : List Nat).length +
        ((stepTokens ['-', '>', 's', ',', ' ', 's', 'e']).map specTokenWireLen).sum +
        (([] : List Nat).length + 16) :=
  c7_write_length c7state [] [] [] ['-', '>', 's', ',', ' ', 's', 'e'] []
    rfl (by decide) (by decide) (by decide)

/-- A handshake state whose step holds an invalid token, for the
failure-keeps-steps witness. -/
def c8state : handshakeState :=
  { strobeState := [], s := zeroKeyPair, e := zeroKeyPair, rs := zeroKeyPair
    re := zeroKeyPair, initiator := true, messagePattern := [['-', '>', 'x']] }

theorem c8_failure_keeps_steps_witness :
    (WriteMessage c8state [] [] []).h.messagePattern = c8state.messagePattern ∧
    (ReadMessage c8state [] []).h.messagePattern = c8state.messagePattern :=
  ⟨(c8_failure_keeps_steps c8state [] [] [] [] []).1 DiscoError.InvalidToken (by decide),
   (c8_failure_keeps_steps c8state [] [] [] [] []).2 DiscoError.InvalidToken (by decide)⟩

/-- A base handshake state for the direction-marker witness. -/
def c9base : handshakeState :=
  { strobeState := [], s := zeroKeyPair, e := zeroKeyPair, rs := zeroKeyPair
    re := zeroKeyPair, initiator := true, messagePattern := [] }

theorem c9_direction_ignored_witness :
    stepTokens (['-', '>'] ++ ['e']) = stepTokens (['<', '-'] ++ ['e']) ∧
    (WriteMessage { c9base with messagePattern := (['-', '>'] ++ ['e']) :: [] } [] [] []).err =
      (WriteMessage { c9base with messagePattern := (['<', '-'] ++ ['e']) :: [] } [] [] []).err ∧
    (ReadMessage { c9base with messagePattern := (['-', '>'] ++ ['e']) :: [] } [] []).err =
      (ReadMessage { c9base with messagePattern := (['<', '-'] ++ ['e']) :: [] } [] []).err :=
  ⟨(c9_direction_ignored c9base ['e'] [] ['-', '>'] ['<', '-'] [] [] [] [] [] rfl rfl).1,
   (c9_direction_ignored c9base ['e'] [] ['-', '>'] ['<', '-'] [] [] [] [] [] rfl rfl).2.1.1,
   (c9_direction_ignored c9base ['e'] [] ['-', '>'] ['<', '-'] [] [] [] [] [] rfl rfl).2.2.1⟩

theorem c10_nil_premessage_key_witness :
    InitializeWithTable kkTable ['K', 'K'] true [] none none none none =
      Except.error DiscoError.NilPointerDereference ∧
    InitializeWithTable kkTable ['K', 'K'] false [] none none none none =
      Except.error DiscoError.NilPointerDereference ∧
    InitializeWithTable kkTable ['K', 'K'] true [] (some zeroKeyPair) none none none =
      Except.error DiscoError.NilPointerDereference ∧
    InitializeWithTable kkTable ['K', 'K'] false [] none none (some zeroKeyPair) none =
      Except.error DiscoError.NilPointerDereference :=
  ⟨((c10_nil_premessage_key kkTable ['K', 'K'] kkPattern [] none none rfl).1 rfl).1,
   ((c10_nil_premessage_key kkTable ['K', 'K'] kkPattern [] none none rfl).1 rfl).2,
   ((c10_nil_premessage_key kkTable ['K', 'K'] kkPattern [] none none rfl).2 rfl zeroKeyPair).1,
   ((c10_nil_premessage_key kkTable ['K', 'K'] kkPattern [] none none rfl).2 rfl zeroKeyPair).2⟩
